import Mathlib

/-!
A shallow embedding of `parse.py` from the choir-processor repository, together
with theorems checking the natural-language specification against it.

The embedding mirrors the Python module construct by construct:

* Python strings are `String`; values that Python may set to `None` are
  `Option String` (Python renders `None` as the text `"None"` via `str`).
* `xml.etree.ElementTree` elements are the inductive `Elem` below; `find`,
  `findall`, `iter` and attribute access follow the ElementTree semantics used
  by the module.  The truth value of an ElementTree element is
  `len(children) != 0` (the historical ElementTree behaviour the module runs
  under), which `elemTruthy` captures.
* Raised Python exceptions are `Except PyError`; an uncaught exception during a
  parse is an `Except.error`.
* Python string methods used by the module (`strip`, single-character `split`,
  `replace` with an empty replacement, `startswith`, `join`) are re-implemented
  by structural recursion over character lists so that concrete inputs evaluate
  inside the kernel.
-/

namespace ChoirProc

/-! ### Python string primitives -/

/-- Characters treated as whitespace by Python `str.strip()` (ASCII range). -/
def isPySpace (c : Char) : Bool :=
  c == ' ' || c == '\t' || c == '\n' || c == '\r' || c == '\x0b' || c == '\x0c'

/-- Python `s.strip()`. -/
def pyStrip (s : String) : String :=
  String.mk (((s.toList.dropWhile isPySpace).reverse.dropWhile isPySpace).reverse)

def splitCharAux (c : Char) : List Char → List Char → List String
  | [], acc => [String.mk acc.reverse]
  | x :: xs, acc =>
    if x == c then String.mk acc.reverse :: splitCharAux c xs []
    else splitCharAux c xs (x :: acc)

/-- Python `s.split(c)` for a one-character separator (the only form
`parse.py` uses: `split(",")` and `split("\n")`). -/
def pySplit (s : String) (c : Char) : List String :=
  splitCharAux c s.toList []

/-- Fuel-driven worker for `pyRemoveAll`; the fuel starts at the length of the
string, which is enough for every non-empty pattern. -/
def removeAllFuel (pat : List Char) : Nat → List Char → List Char
  | _, [] => []
  | 0, l => l
  | Nat.succ fuel, x :: xs =>
    if pat.isPrefixOf (x :: xs) then removeAllFuel pat fuel ((x :: xs).drop pat.length)
    else x :: removeAllFuel pat fuel xs

/-- Python `s.replace(pat, "")` — `parse.py` only ever replaces with the empty
string (stripping quotes, `"response("` markers and parentheses). -/
def pyRemoveAll (s pat : String) : String :=
  String.mk (removeAllFuel pat.toList s.toList.length s.toList)

/-- Python `s.startswith(p)`. -/
def pyStartsWith (s p : String) : Bool :=
  p.toList.isPrefixOf s.toList

/-- Python `sep.join(l)`. -/
def pyJoin (sep : String) : List String → String
  | [] => ""
  | [x] => x
  | x :: y :: xs => x ++ sep ++ pyJoin sep (y :: xs)

/-! ### ElementTree elements -/

/-- An `xml.etree.ElementTree` element: tag, attribute dictionary, ordered
children, and text content (`None` when absent). -/
structure Elem where
  tag : String
  attrib : List (String × String)
  children : List Elem
  text : Option String

/-- Python `e.get(k)` / `e.attrib.get(k)`: attribute lookup returning `None`
when the key is missing. -/
def Elem.get (e : Elem) (k : String) : Option String :=
  (e.attrib.find? (fun p => p.1 == k)).map (fun p => p.2)

/-- Python `e.find(t)`: first direct child with the given tag, else `None`. -/
def Elem.find (e : Elem) (t : String) : Option Elem :=
  e.children.find? (fun c => c.tag == t)

/-- Python `e.findall(t)`: all direct children with the given tag, in order. -/
def Elem.findall (e : Elem) (t : String) : List Elem :=
  e.children.filter (fun c => c.tag == t)

/-- Python `e.iter(t)`: the element itself and all descendants with the given
tag, in document (preorder) order. -/
def Elem.iter (t : String) : Elem → List Elem
  | Elem.mk tg a cs tx =>
    (if tg == t then [Elem.mk tg a cs tx] else []) ++
    (cs.attach.map (fun c => Elem.iter t c.1)).flatten
decreasing_by
  have h := List.sizeOf_lt_of_mem c.2
  simp only [Elem.mk.sizeOf_spec]
  omega

/-- The Python truth value of `e.find(...)`: `False` for `None`, and for an
element the historical ElementTree behaviour `len(children) != 0`. -/
def elemTruthy : Option Elem → Bool
  | none => false
  | some e => !(e.children.isEmpty)

/-! ### Exceptions -/

/-- The Python exceptions that the embedded code can raise. -/
inductive PyError where
  | attributeError
  | keyError
  | typeError
  | indexError
  | valueError
deriving DecidableEq

/-! ### The data model: Question and Questionnaire -/

/-- `Question`: title, optional subtitle, ordered `(text, value)` options.
Fields that Python may set to `None` are `Option String`. -/
structure Question where
  title : Option String
  subtitle : Option String
  options : List (Option String × Option String)
deriving DecidableEq

/-- `Question.__init__`: `if title and isinstance(title, str): title =
title.strip()` — a non-`None`, non-empty title is stripped; options start
empty. -/
def Question.make (title subtitle : Option String) : Question :=
  { title :=
      match title with
      | some s => if s == "" then some s else some (pyStrip s)
      | none => none,
    subtitle := subtitle,
    options := [] }

/-- `Question.add_option`: append an `(text, value)` pair. -/
def Question.add_option (q : Question) (text value : Option String) : Question :=
  { q with options := q.options ++ [(text, value)] }

/-- `Questionnaire`: optional title plus the appended questions.  The list
holds `Option Question` because `JavaQuestionnaire` appends whatever
`parse_item` returns, which is `None` when no `item(` line was seen. -/
structure Questionnaire where
  title : Option String
  questions : List (Option Question)
deriving DecidableEq

/-- `Questionnaire.add_question`: append a question. -/
def Questionnaire.add_question (qn : Questionnaire) (q : Option Question) : Questionnaire :=
  { qn with questions := qn.questions ++ [q] }

/-! ### The renderer (each entity's `__str__`) -/

/-- Python `str` on an optional string: `str(None)` is the text `"None"`. -/
def pyStr : Option String → String
  | none => "None"
  | some s => s

/-- The Python truth value of a title/subtitle slot: `None` and the empty
string are falsy, every other string truthy. -/
def truthyStr : Option String → Bool
  | none => false
  | some s => !(s == "")

/-- The option-list loop of `Question.__str__`:
`for i, (text, _) in enumerate(self.options): s += "{}. {}\n".format(i + 1, text)`. -/
def renderOptionsFrom : Nat → List (Option String × Option String) → String
  | _, [] => ""
  | i, (text, _) :: rest =>
    Nat.repr (i + 1) ++ ". " ++ pyStr text ++ "\n" ++ renderOptionsFrom (i + 1) rest

/-- `Question.__str__`. -/
def Question.render (q : Question) : String :=
  (if truthyStr q.title then "\n### " ++ pyStr q.title ++ "\n\n" else "") ++
  (if truthyStr q.subtitle then "\n#### " ++ pyStr q.subtitle ++ "\n\n" else "") ++
  renderOptionsFrom 0 q.options

/-- Python `str` applied to a question slot (`str(None)` is `"None"`). -/
def strOptQuestion : Option Question → String
  | none => "None"
  | some q => q.render

/-- The deduplicated collection `set([str(q) for q in self.questions])` of
`Questionnaire.__str__`.  Python's set iteration order is unspecified, so the
embedding fixes `List.dedup` as its order and only order-independent
properties are stated about the joined result. -/
def Questionnaire.renderedTexts (qn : Questionnaire) : List String :=
  (qn.questions.map strOptQuestion).dedup

/-- `Questionnaire.__str__`. -/
def Questionnaire.render (qn : Questionnaire) : String :=
  (if truthyStr qn.title then "## " ++ pyStr qn.title ++ "\n\n" else "") ++
  pyJoin "\n" qn.renderedTexts

/-! ### XmlQuestionnaire (the structured-tree parser) -/

/-- The body of the `for i in response.iter("item")` loop of the
`select1`/`select` branch: `i.find("label").text` and `i.find("value").text`
raise `AttributeError` when the child is missing (`None.text`), otherwise the
pair is appended as an option. -/
def selectItemStep (q : Question) (i : Elem) : Except PyError Question :=
  match i.find "label", i.find "value" with
  | some lbl, some vl => Except.ok (q.add_option lbl.text vl.text)
  | none, _ => Except.error PyError.attributeError
  | some _, none => Except.error PyError.attributeError

/-- The body of the `for response in responses` loop of
`XmlQuestionnaire.__init__`, acting on the single `Question` built for the
enclosing `Item`.  Raised exceptions become `Except.error`. -/
def processResponse (q : Question) (response : Elem) : Except PyError Question :=
  let rt := response.get "Type"
  if rt == some "select1" || rt == some "select" then
    (response.iter "item").foldlM selectItemStep q
  else if rt == some "radio" then
    let value : Option String :=
      match response.find "Score" with
      | some score => if score.children.isEmpty then some "" else score.get "value"
      | none => some ""
    Except.ok (q.add_option (response.get "Description") value)
  else
    Except.ok q

/-- The body of the `for item in items.iter("Item")` loop of
`XmlQuestionnaire.__init__`: build the `Question` from the `Description`
children, then run every `Response` against it.  The unguarded
`item.find("Responses").findall("Response")` raises `AttributeError` when the
`Responses` child is absent (`None.findall`). -/
def processItem (item : Elem) : Except PyError Question :=
  let descriptions := item.findall "Description"
  let title : Option String :=
    match descriptions[0]? with
    | some d => d.text
    | none => none
  let subtitle : Option String :=
    match descriptions[1]? with
    | some d => d.text
    | none => none
  let q0 := Question.make title subtitle
  match item.find "Responses" with
  | none => Except.error PyError.attributeError
  | some resps => (resps.findall "Response").foldlM processResponse q0

/-- One iteration of the item loop at the questionnaire level: parse the item
and append the resulting question (`self.add_question(question)` runs once per
`Item`, after the response loop). -/
def xmlItemStep (qn : Questionnaire) (item : Elem) : Except PyError Questionnaire :=
  (processItem item).map (fun q => qn.add_question (some q))

/-- The full item loop of `XmlQuestionnaire.__init__`. -/
def addItems (qn : Questionnaire) (L : List Elem) : Except PyError Questionnaire :=
  L.foldlM xmlItemStep qn

/-- `XmlQuestionnaire.__init__` on an already-parsed root element: title from
the root's `Description` attribute, then `if items:` (ElementTree truthiness)
guards the loop over `items.iter("Item")`. -/
def xmlQuestionnaire (form : Elem) : Except PyError Questionnaire :=
  let qn0 : Questionnaire := { title := form.get "Description", questions := [] }
  match form.find "Items" with
  | none => Except.ok qn0
  | some items =>
    if items.children.isEmpty then Except.ok qn0
    else addItems qn0 (items.iter "Item")

/-! ### JavaQuestionnaire (the line-oriented DSL parser)

The file is modelled as its list of lines without trailing newline
characters; the segmentation pass reinserts `"\n"` between accumulated lines,
so records split exactly as Python's `item.split("\n")` splits them. -/

/-- One line of `JavaQuestionnaire.get_items`: start a record on `item(`,
close it on a line that strips to `)` or `),` (a close with no open record is
`None += str`, a `TypeError`), extend an open record otherwise, and discard
lines outside any record. -/
def get_items_step (st : List String × Option String) (line : String) :
    Except PyError (List String × Option String) :=
  if pyStartsWith (pyStrip line) "item(" then Except.ok (st.1, some line)
  else if pyStrip line == ")," || pyStrip line == ")" then
    match st.2 with
    | none => Except.error PyError.typeError
    | some cur => Except.ok (st.1 ++ [cur ++ "\n" ++ line], none)
  else
    match st.2 with
    | some cur => Except.ok (st.1, some (cur ++ "\n" ++ line))
    | none => Except.ok st

/-- `JavaQuestionnaire.get_items`: the ordered raw item records. -/
def get_items (lines : List String) : Except PyError (List String) :=
  (lines.foldlM get_items_step ([], none)).map (fun st => st.1)

/-- One line of `JavaQuestionnaire.parse_item`: an `item(` line rebuilds the
question from comma fields 1 and 2 (an absent field is an `IndexError`); a
`response(` line strips the markers, destructures at least two comma fields
(else `ValueError`) and appends an option (`None.add_option` is an
`AttributeError` when no `item(` line came first); other lines are ignored. -/
def parse_item_step (question : Option Question) (rawLine : String) :
    Except PyError (Option Question) :=
  let line := pyStrip rawLine
  if pyStartsWith line "item(" then
    let pieces := pySplit line ','
    match pieces[1]?, pieces[2]? with
    | some p1, some p2 =>
      Except.ok (some (Question.make
        (some (pyRemoveAll (pyStrip p1) "\"")) (some (pyRemoveAll (pyStrip p2) "\""))))
    | none, _ => Except.error PyError.indexError
    | some _, none => Except.error PyError.indexError
  else if pyStartsWith line "response(" then
    let cleaned := pyRemoveAll (pyRemoveAll line "response(") ")"
    match pySplit cleaned ',' with
    | text :: vl :: _ =>
      match question with
      | none => Except.error PyError.attributeError
      | some q =>
        Except.ok (some (q.add_option (some (pyRemoveAll (pyStrip text) "\"")) (some (pyStrip vl))))
    | _ => Except.error PyError.valueError
  else
    Except.ok question

/-- `JavaQuestionnaire.parse_item` on one raw record. -/
def parse_item (item : String) : Except PyError (Option Question) :=
  (pySplit item '\n').foldlM parse_item_step none

/-- `JavaQuestionnaire.__init__`: segment the lines into records, parse each
record, and append the results in order to a title-less questionnaire. -/
def javaQuestionnaire (lines : List String) : Except PyError Questionnaire := do
  let items ← get_items lines
  let qs ← items.mapM parse_item
  Except.ok { title := none, questions := qs }

/-! ### Process and ProcessType -/

/-- `ProcessType`: the selector used as title, plus one slot per `Questionaire`
descendant; a slot is `none` when `parse_questionnaire` swallowed an
exception. -/
structure ProcessType where
  title : String
  questionnaires : List (Option Questionnaire)

/-- `ProcessType.parse_questionnaire`.  File loading is abstracted by
`fs : String → Option Elem` (the parsed tree of a path, or `none` when the
file is missing or unparsable); every exception inside the `try` — missing
`type`/`xml`/`value` attribute, missing file, nested parse failure — yields
`none`. -/
def parse_questionnaire (fs : String → Option Elem) (q_root : Elem) : Option Questionnaire :=
  match q_root.get "type" with
  | none => none
  | some qt =>
    if qt == "Local" then
      match q_root.get "xml" with
      | none => none
      | some x =>
        match fs (x ++ ".xml") with
        | none => none
        | some form =>
          match xmlQuestionnaire form with
          | Except.ok qn => some qn
          | Except.error _ => none
    else
      match q_root.get "value" with
      | none => none
      | some v => some { title := some v, questions := [] }

/-- `ProcessType.__init__`: one slot per `Questionaire` descendant of the
matched element, each resolved eagerly. -/
def ProcessType.make (fs : String → Option Elem) (title : String) (root : Elem) : ProcessType :=
  { title := title,
    questionnaires := (root.iter "Questionaire").map (parse_questionnaire fs) }

/-- The scan of `Process.get_process_type` over the root's direct children:
`process_type.attrib["value"]` raises `KeyError` when the attribute is
missing; the first child whose `value` equals the selector wins; falling off
the loop returns `None`. -/
def get_process_type_aux (fs : String → Option Elem) (value : String) :
    List Elem → Except PyError (Option ProcessType)
  | [] => Except.ok none
  | c :: rest =>
    match c.get "value" with
    | none => Except.error PyError.keyError
    | some v =>
      if v == value then Except.ok (some (ProcessType.make fs value c))
      else get_process_type_aux fs value rest

/-- `Process.get_process_type`. -/
def get_process_type (fs : String → Option Elem) (root : Elem) (value : String) :
    Except PyError (Option ProcessType) :=
  get_process_type_aux fs value root.children

/-- Python `str` applied to a questionnaire slot (`str(None)` is `"None"`). -/
def strOptQuestionnaire : Option Questionnaire → String
  | none => "None"
  | some qn => qn.render

/-- `ProcessType.__str__`: the heading, then `"\n".join(str(q) for q in
self.questionnaires)` over every slot, `None` slots included. -/
def ProcessType.render (pt : ProcessType) : String :=
  "# " ++ pt.title ++ "\n\n" ++ pyJoin "\n" (pt.questionnaires.map strOptQuestionnaire)

/-- Spec-side rendering of a `ProcessType`, following the words of the spec:
the heading followed by only the non-null questionnaires' renderings, joined
with single newlines.  Stated for comparison with `ProcessType.render`. -/
def ProcessType.renderSpec (pt : ProcessType) : String :=
  "# " ++ pt.title ++ "\n\n" ++
  pyJoin "\n" ((pt.questionnaires.filterMap id).map Questionnaire.render)

/-! ### Helper lemmas -/

theorem pyJoin_empty_cons (x : String) (xs : List String) :
    pyJoin "" (x :: xs) = x ++ pyJoin "" xs := by
  cases xs with
  | nil => rw [pyJoin, pyJoin, String.append_empty]
  | cons y ys => rw [pyJoin, String.append_empty]

theorem renderOptionsFrom_enumFrom (l : List (Option String × Option String)) :
    ∀ n : Nat,
      renderOptionsFrom n l
        = pyJoin "" ((l.enumFrom n).map
            (fun p => Nat.repr (p.1 + 1) ++ ". " ++ pyStr p.2.1 ++ "\n")) := by
  induction l with
  | nil => intro n; rfl
  | cons hd tl ih =>
    intro n
    obtain ⟨text, v⟩ := hd
    rw [renderOptionsFrom, List.enumFrom, List.map_cons, pyJoin_empty_cons, ih (n + 1)]

/-! ### Demonstration inputs

Concrete elements and lines used by counterexamples and witnesses below. -/

/-- A `Description` child with text `"T"`. -/
def descT : Elem := Elem.mk "Description" [] [] (some "T")

/-- A `radio` response labelled `"A"`, with no `Score` child. -/
def radioA : Elem := Elem.mk "Response" [("Type", "radio"), ("Description", "A")] [] none

/-- A `radio` response labelled `"B"`, with no `Score` child. -/
def radioB : Elem := Elem.mk "Response" [("Type", "radio"), ("Description", "B")] [] none

/-- A `Responses` container holding the two radio responses. -/
def respsAB : Elem := Elem.mk "Responses" [] [radioA, radioB] none

/-- An `Item` with one `Description` and two `Response` children. -/
def itemAB : Elem := Elem.mk "Item" [] [descT, respsAB] none

/-- A structured-tree form whose single `Item` carries two responses. -/
def formTwoResponses : Elem :=
  Elem.mk "Form" [("Description", "Q1")] [Elem.mk "Items" [] [itemAB] none] none

/-- An `Item` with a `Description` child but no `Responses` child at all. -/
def itemNoResponses : Elem := Elem.mk "Item" [] [descT] none

/-- A structured-tree form whose single `Item` lacks a `Responses` child. -/
def formNoResponses : Elem :=
  Elem.mk "Form" [] [Elem.mk "Items" [] [itemNoResponses] none] none

/-- An `Item` whose `Responses` element is present but has no `Response`
children. -/
def itemEmptyResponses : Elem :=
  Elem.mk "Item" [] [descT, Elem.mk "Responses" [] [] none] none

/-- A childless `Score` element carrying `value="1"`. -/
def scoreOne : Elem := Elem.mk "Score" [("value", "1")] [] none

/-- A `radio` response with `Description="Yes"` and the childless `Score`
child `scoreOne`. -/
def radioYes : Elem :=
  Elem.mk "Response" [("Type", "radio"), ("Description", "Yes")] [scoreOne] none

/-- A `ProcessType` whose only questionnaire slot failed to resolve. -/
def nullSlotPT : ProcessType := { title := "T", questionnaires := [none] }

/-! ### Claim C2 — rendering of null questionnaire slots -/

/-- Claim C2, counterexample: the claim says a null slot is skipped and
contributes nothing, but `"\n".join(str(q) for q in ...)` turns a `None` slot
into the literal text `"None"`: on a `ProcessType` whose only slot is null the
code's rendering differs from the spec's skip-the-nulls rendering. -/
theorem null_slot_renders_none :
    ProcessType.render nullSlotPT ≠ ProcessType.renderSpec nullSlotPT := by
  decide

/-- Claim C2, amended: rendering a `ProcessType` is the `# {title}` heading
followed by every slot's rendering joined with single newlines, where a null
slot contributes the literal text `"None"` (Python `str(None)`) instead of
being skipped. -/
theorem processtype_render_null_slots (pt : ProcessType) :
    ProcessType.render pt
      = "# " ++ pt.title ++ "\n\n"
        ++ pyJoin "\n" (pt.questionnaires.map
            (fun s => Option.elim s "None" Questionnaire.render)) := by
  have h : strOptQuestionnaire = fun s => Option.elim s "None" Questionnaire.render := by
    funext s; cases s <;> rfl
  rw [ProcessType.render, h]

/-! ### Claim C4 — the radio Score value -/

/-- Claim C4, code bug: `radioYes` has a `Score` child whose `value` attribute
is `"1"`, yet the appended option's value is `""`, because `if score:` tests
ElementTree truthiness (`len(children) != 0`) rather than presence, and the
`Score` element is childless.  The label is the response's `Description`
attribute as claimed. -/
theorem radio_score_value_bug :
    Elem.find radioYes "Score" = some scoreOne
    ∧ Elem.get scoreOne "value" = some "1"
    ∧ processResponse (Question.make none none) radioYes
        = Except.ok { title := none, subtitle := none, options := [(some "Yes", some "")] } :=
  ⟨rfl, rfl, rfl⟩

/-! ### Claim C5 — deduplication of rendered questions -/

/-- Claim C5: in a `Questionnaire` containing two questions whose rendered
texts are byte-identical, the deduplicated collection that
`Questionnaire.__str__` joins contains that text exactly once. -/
theorem questionnaire_dedup_exact (qn : Questionnaire) (q1 q2 : Question)
    (h1 : some q1 ∈ qn.questions) (h2 : some q2 ∈ qn.questions)
    (hrender : q1.render = q2.render) :
    qn.renderedTexts.count q1.render = 1 := by
  rw [Questionnaire.renderedTexts, List.count_dedup, if_pos]
  exact List.mem_map_of_mem strOptQuestion h1

/-- A question used by the deduplication witness. -/
def dupQuestion : Question := { title := some "T", subtitle := none, options := [] }

/-- Claim C5 witness: the deduplication theorem applied to a concrete
questionnaire holding the same question twice. -/
theorem questionnaire_dedup_exact_witness :
    (Questionnaire.renderedTexts
        { title := none, questions := [some dupQuestion, some dupQuestion] }).count
      dupQuestion.render = 1 :=
  questionnaire_dedup_exact
    { title := none, questions := [some dupQuestion, some dupQuestion] }
    dupQuestion dupQuestion (by simp) (by simp) rfl

/-! ### Claim C6 — option ordering and numbering -/

/-- Claim C6: a question renders its options in exactly the order they were
appended, one line per option of the form `{index}. {label}` with consecutive
1-based indices (position `p.1` in the list gets index `p.1 + 1`); and
`add_option` appends at the end of the list. -/
theorem options_render_in_declaration_order (q : Question) :
    Question.render q
      = (if truthyStr q.title then "\n### " ++ pyStr q.title ++ "\n\n" else "")
        ++ (if truthyStr q.subtitle then "\n#### " ++ pyStr q.subtitle ++ "\n\n" else "")
        ++ pyJoin "" (q.options.enum.map
            (fun p => Nat.repr (p.1 + 1) ++ ". " ++ pyStr p.2.1 ++ "\n"))
    ∧ ∀ (t v : Option String), (q.add_option t v).options = q.options ++ [(t, v)] := by
  constructor
  · rw [Question.render, renderOptionsFrom_enumFrom q.options 0]
    rfl
  · intro t v
    rfl

/-! ### Claim C1 — one Question per Item, not one per Response -/

/-- `extendsQ q q2`: `q2` is `q` with the same title and subtitle and some
options appended at the end. -/
def extendsQ (q q2 : Question) : Prop :=
  q2.title = q.title ∧ q2.subtitle = q.subtitle ∧ ∃ e, q2.options = q.options ++ e

theorem extendsQ_refl (q : Question) : extendsQ q q :=
  ⟨rfl, rfl, [], by simp⟩

theorem extendsQ_trans {a b c : Question} (h1 : extendsQ a b) (h2 : extendsQ b c) :
    extendsQ a c := by
  obtain ⟨t1, s1, e1, ho1⟩ := h1
  obtain ⟨t2, s2, e2, ho2⟩ := h2
  exact ⟨t2.trans t1, s2.trans s1, e1 ++ e2, by rw [ho2, ho1, List.append_assoc]⟩

theorem extendsQ_add_option (q : Question) (t v : Option String) :
    extendsQ q (q.add_option t v) :=
  ⟨rfl, rfl, [(t, v)], rfl⟩

theorem selectItemStep_extends {q q2 : Question} {i : Elem}
    (h : selectItemStep q i = Except.ok q2) : extendsQ q q2 := by
  rw [selectItemStep] at h
  split at h
  · cases h
    exact extendsQ_add_option _ _ _
  · cases h
  · cases h

theorem foldlM_extends {f : Question → Elem → Except PyError Question}
    (hf : ∀ q i q2, f q i = Except.ok q2 → extendsQ q q2) :
    ∀ (l : List Elem) (q q2 : Question), l.foldlM f q = Except.ok q2 → extendsQ q q2 := by
  intro l
  induction l with
  | nil =>
    intro q q2 h
    cases h
    exact extendsQ_refl q
  | cons i l ih =>
    intro q q2 h
    rw [List.foldlM] at h
    cases hfi : f q i with
    | error e => rw [hfi] at h; cases h
    | ok q1 =>
      rw [hfi] at h
      exact extendsQ_trans (hf q i q1 hfi) (ih q1 q2 h)

theorem processResponse_extends {q q2 : Question} {r : Elem}
    (h : processResponse q r = Except.ok q2) : extendsQ q q2 := by
  rw [processResponse] at h
  split at h
  · exact foldlM_extends (fun _ _ _ => selectItemStep_extends) _ q q2 h
  · split at h
    · cases h
      exact extendsQ_add_option _ _ _
    · cases h
      exact extendsQ_refl q

/-- Claim C1, counterexample: the `Item` of `formTwoResponses` has two
`Response` children, yet parsing yields a questionnaire with a single
`Question` entry whose options merge both responses — not two entries as the
claim states. -/
theorem two_responses_one_question :
    (respsAB.findall "Response").length = 2
    ∧ xmlQuestionnaire formTwoResponses
        = Except.ok ⟨some "Q1", [some ⟨some "T", none, [(some "A", some ""), (some "B", some "")]⟩]⟩
    ∧ (xmlQuestionnaire formTwoResponses).toOption.map (fun qn => qn.questions.length)
        = some 1 := by
  have h : xmlQuestionnaire formTwoResponses
      = Except.ok ⟨some "Q1", [some ⟨some "T", none, [(some "A", some ""), (some "B", some "")]⟩]⟩ := by
    simp [xmlQuestionnaire, formTwoResponses, itemAB, descT, respsAB, radioA, radioB,
      Elem.find, Elem.get, Elem.findall, Elem.iter, addItems, xmlItemStep, processItem,
      processResponse, selectItemStep, Question.make, Question.add_option,
      Questionnaire.add_question, List.foldlM, Except.map, Bind.bind, Except.bind,
      Pure.pure, Except.pure, pyStrip, isPySpace, List.dropWhile]
  refine ⟨rfl, h, ?_⟩
  rw [h]
  rfl

/-- Claim C1, amended: the constructed `Question` is appended to the
questionnaire once per `Item`, not once per `Response`: a run of the item loop
over items that all parse adds exactly one question entry per item, and the
response loop only ever grows the options of the one question built for its
item, never its title or subtitle. -/
theorem question_appended_once_per_item :
    (∀ (L : List Elem) (qn : Questionnaire),
        (∀ i ∈ L, (processItem i).isOk = true) →
        ∃ ps : List Question,
          addItems qn L
              = Except.ok { title := qn.title, questions := qn.questions ++ ps.map some }
            ∧ ps.length = L.length)
    ∧ (∀ (rs : List Elem) (q q2 : Question),
        rs.foldlM processResponse q = Except.ok q2 →
        q2.title = q.title ∧ q2.subtitle = q.subtitle
          ∧ ∃ e, q2.options = q.options ++ e) := by
  constructor
  · intro L
    induction L with
    | nil =>
      intro qn _
      exact ⟨[], by simp [addItems, List.foldlM, Pure.pure, Except.pure], rfl⟩
    | cons i L ih =>
      intro qn h
      have hi : (processItem i).isOk = true := h i (List.mem_cons_self i L)
      cases hq : processItem i with
      | error e => rw [hq] at hi; cases hi
      | ok q =>
        obtain ⟨ps, hps, hlen⟩ :=
          ih (qn.add_question (some q)) (fun j hj => h j (List.mem_cons_of_mem i hj))
        refine ⟨q :: ps, ?_, by simp [hlen]⟩
        rw [addItems, List.foldlM, xmlItemStep, hq]
        show addItems (qn.add_question (some q)) L = _
        rw [hps]
        simp [Questionnaire.add_question, List.append_assoc]
  · intro rs q q2 h
    exact foldlM_extends (fun _ _ _ => processResponse_extends) rs q q2 h

/-- Claim C1 witness: the amended theorem applied to the two-response item. -/
theorem question_appended_once_per_item_witness :
    ∃ ps : List Question,
      addItems { title := some "Q1", questions := [] } [itemAB]
          = Except.ok { title := some "Q1", questions := [] ++ ps.map some }
        ∧ ps.length = [itemAB].length :=
  question_appended_once_per_item.1 [itemAB] { title := some "Q1", questions := [] }
    (by
      intro i hi
      rw [List.mem_singleton] at hi
      subst hi
      rfl)

/-! ### Claim C3 — an Item without a Responses child -/

/-- Claim C3, counterexample: the claim says a missing `Responses` child is
not an error, but `item.find("Responses").findall("Response")` is unguarded:
on a form whose single `Item` has no `Responses` child, parsing fails with an
`AttributeError` (`None.findall`). -/
theorem missing_responses_fails :
    itemNoResponses.find "Responses" = none
    ∧ xmlQuestionnaire formNoResponses = Except.error PyError.attributeError := by
  refine ⟨rfl, ?_⟩
  simp [xmlQuestionnaire, formNoResponses, itemNoResponses, descT,
    Elem.find, Elem.get, Elem.findall, Elem.iter, addItems, xmlItemStep, processItem,
    List.foldlM, Except.map, Bind.bind, Except.bind, Pure.pure, Except.pure]

/-- Claim C3, amended: an `Item` whose `Responses` child element is absent
makes parsing fail with an `AttributeError`; only an `Item` whose `Responses`
element is present but holds no `Response` children yields a `Question` with
no options. -/
theorem missing_responses_amended :
    (∀ item : Elem, item.find "Responses" = none →
        processItem item = Except.error PyError.attributeError)
    ∧ (∀ item resps : Elem, item.find "Responses" = some resps →
        resps.findall "Response" = [] →
        ∃ q : Question, processItem item = Except.ok q ∧ q.options = []) := by
  constructor
  · intro item h
    simp [processItem, h]
  · intro item resps h1 h2
    simp only [processItem, h1, h2, List.foldlM]
    exact ⟨_, rfl, rfl⟩

/-- Claim C3 witness: the amended theorem applied to an item with no
`Responses` child and to an item with an empty `Responses` element. -/
theorem missing_responses_amended_witness :
    processItem itemNoResponses = Except.error PyError.attributeError
    ∧ ∃ q : Question, processItem itemEmptyResponses = Except.ok q ∧ q.options = [] :=
  ⟨missing_responses_amended.1 itemNoResponses rfl,
   missing_responses_amended.2 itemEmptyResponses (Elem.mk "Responses" [] [] none) rfl rfl⟩

/-! ### Claim C7 — response( lines before any item( line -/

/-- A DSL file whose first line is a `response(` line appearing before any
`item(` line. -/
def dslResponseFirst : List String := ["response(\"a\", 1,)", "item(\"T\",\"S\",)", ")"]

/-- Claim C7, counterexample: the claim says such a file is a fatal defect,
but segmentation discards every line outside an open record, so the leading
`response(` line is silently dropped and parsing succeeds. -/
theorem response_before_item_no_failure :
    pyStartsWith (pyStrip "response(\"a\", 1,)") "response(" = true
    ∧ javaQuestionnaire dslResponseFirst
        = Except.ok ⟨none, [some ⟨some "S", some ")", []⟩]⟩
    ∧ (javaQuestionnaire dslResponseFirst).isOk = true :=
  ⟨rfl, rfl, rfl⟩

theorem foldlM_get_items_step_drop (rest : List String) :
    ∀ pre : List String,
      (∀ l ∈ pre, pyStartsWith (pyStrip l) "item(" = false
          ∧ (pyStrip l == "),") = false ∧ (pyStrip l == ")") = false) →
      (pre ++ rest).foldlM get_items_step (([], none) : List String × Option String)
        = rest.foldlM get_items_step ([], none) := by
  intro pre
  induction pre with
  | nil => intro _; rfl
  | cons l pre ih =>
    intro h
    obtain ⟨h1, h2, h3⟩ := h l (List.mem_cons_self l pre)
    have hstep : get_items_step ([], none) l = Except.ok ([], none) := by
      simp [get_items_step, h1, h2, h3]
    rw [List.cons_append, List.foldlM, hstep]
    exact ih (fun x hx => h x (List.mem_cons_of_mem l hx))

/-- Claim C7, amended: lines appearing before any `item(` line that neither
open a record (`item(` after stripping) nor close one (strip to `)` or `),`)
— in particular `response(` lines — are discarded by segmentation and change
nothing: parsing the file equals parsing it without them, and in particular
does not fail on their account. -/
theorem leading_non_record_lines_discarded (pre rest : List String)
    (h : ∀ l ∈ pre, pyStartsWith (pyStrip l) "item(" = false
        ∧ (pyStrip l == "),") = false ∧ (pyStrip l == ")") = false) :
    javaQuestionnaire (pre ++ rest) = javaQuestionnaire rest := by
  have hg : get_items (pre ++ rest) = get_items rest := by
    rw [get_items, get_items, foldlM_get_items_step_drop rest pre h]
  rw [javaQuestionnaire, javaQuestionnaire, hg]

/-- Claim C7 witness: dropping the leading `response(` line of
`dslResponseFirst` leaves the parse unchanged. -/
theorem leading_non_record_lines_discarded_witness :
    javaQuestionnaire (["response(\"a\", 1,)"] ++ ["item(\"T\",\"S\",)", ")"])
      = javaQuestionnaire ["item(\"T\",\"S\",)", ")"] :=
  leading_non_record_lines_discarded ["response(\"a\", 1,)"] ["item(\"T\",\"S\",)", ")"]
    (by
      intro l hl
      rw [List.mem_singleton] at hl
      subst hl
      exact ⟨rfl, rfl, rfl⟩)

/-! ### Claims C8 and C9 — Process.get_process_type -/

/-- A file system exposing no parsable files. -/
def fsEmpty : String → Option Elem := fun _ => none

/-- A process-type child with `value="A"`. -/
def ptChildA : Elem := Elem.mk "ProcessType" [("value", "A")] [] none

/-- A process-type child with `value="B"`. -/
def ptChildB : Elem := Elem.mk "ProcessType" [("value", "B")] [] none

/-- A process-type child with no `value` attribute. -/
def ptChildNoValue : Elem := Elem.mk "ProcessType" [] [] none

/-- A process document whose children both carry `value` attributes. -/
def procRoot : Elem := Elem.mk "Process" [] [ptChildA, ptChildB] none

/-- A process document with a `value`-less child between two carrying one. -/
def procRootBad : Elem := Elem.mk "Process" [] [ptChildA, ptChildNoValue, ptChildB] none

theorem get_process_type_aux_first_match (fs : String → Option Elem) (v : String) :
    ∀ cs : List Elem, (∀ c ∈ cs, (c.get "value").isSome = true) →
      get_process_type_aux fs v cs
        = Except.ok ((cs.find? (fun c => c.get "value" == some v)).map
            (fun c => ProcessType.make fs v c)) := by
  intro cs
  induction cs with
  | nil => intro _; rfl
  | cons c rest ih =>
    intro h
    have hc := h c (List.mem_cons_self c rest)
    cases hv : c.get "value" with
    | none => rw [hv] at hc; cases hc
    | some s =>
      cases hs : ((s == v) : Bool) with
      | true =>
        have hfind : List.find? (fun x => x.get "value" == some v) (c :: rest) = some c :=
          List.find?_cons_of_pos _
            (by show (c.get "value" == some v) = true; rw [hv]; exact hs)
        have haux : get_process_type_aux fs v (c :: rest)
            = Except.ok (some (ProcessType.make fs v c)) := by
          simp only [get_process_type_aux, hv]
          rw [if_pos hs]
        rw [haux, hfind]
        rfl
      | false =>
        have hfind : List.find? (fun x => x.get "value" == some v) (c :: rest)
            = List.find? (fun x => x.get "value" == some v) rest :=
          List.find?_cons_of_neg _
            (by
              show ¬(c.get "value" == some v) = true
              rw [hv]
              show ¬(s == v) = true
              rw [hs]
              exact Bool.false_ne_true)
        have haux : get_process_type_aux fs v (c :: rest) = get_process_type_aux fs v rest := by
          simp only [get_process_type_aux, hv]
          rw [if_neg (by rw [hs]; exact Bool.false_ne_true)]
        rw [haux, hfind]
        exact ih (fun x hx => h x (List.mem_cons_of_mem c hx))

/-- Claim C8: when every direct child of the root carries a `value`
attribute, `get_process_type` returns (without raising) the `ProcessType`
built from the first child whose `value` equals the selector, and an absent
result when no child matches. -/
theorem get_process_type_first_match (fs : String → Option Elem) (root : Elem) (v : String)
    (h : ∀ c ∈ root.children, (c.get "value").isSome = true) :
    get_process_type fs root v
      = Except.ok ((root.children.find? (fun c => c.get "value" == some v)).map
          (fun c => ProcessType.make fs v c)) := by
  rw [get_process_type]
  exact get_process_type_aux_first_match fs v root.children h

/-- Claim C8 witness: selecting `"B"` from a two-child process document
returns the `ProcessType` built from the second child. -/
theorem get_process_type_first_match_witness :
    get_process_type fsEmpty procRoot "B"
      = Except.ok ((procRoot.children.find? (fun c => c.get "value" == some "B")).map
          (fun c => ProcessType.make fsEmpty "B" c)) :=
  get_process_type_first_match fsEmpty procRoot "B"
    (by
      intro c hc
      simp only [procRoot, List.mem_cons, List.not_mem_nil, or_false] at hc
      rcases hc with rfl | rfl <;> rfl)

/-- Claim C9: the graceful no-match behaviour of `get_process_type` needs
every scanned child to carry a `value` attribute: if some child scanned
before the first match lacks one, `process_type.attrib["value"]` raises a
`KeyError` instead of continuing the scan or returning an absent result. -/
theorem get_process_type_missing_value_raises (fs : String → Option Elem) (root : Elem)
    (v : String) (pre rest : List Elem) (c : Elem)
    (hchildren : root.children = pre ++ c :: rest)
    (hpre : ∀ p ∈ pre, ∃ s, p.get "value" = some s ∧ s ≠ v)
    (hc : c.get "value" = none) :
    get_process_type fs root v = Except.error PyError.keyError := by
  rw [get_process_type, hchildren]
  clear hchildren
  induction pre with
  | nil =>
    rw [List.nil_append]
    simp only [get_process_type_aux, hc]
  | cons p pre ih =>
    obtain ⟨s, hs, hne⟩ := hpre p (List.mem_cons_self p pre)
    have hsv : ((s == v) : Bool) = false := by
      simp [hne]
    rw [List.cons_append]
    simp only [get_process_type_aux, hs]
    rw [if_neg (by rw [hsv]; exact Bool.false_ne_true)]
    exact ih (fun x hx => hpre x (List.mem_cons_of_mem p hx))

/-- Claim C9 witness: a `value`-less child sitting before the matching child
turns the lookup into a `KeyError`. -/
theorem get_process_type_missing_value_raises_witness :
    get_process_type fsEmpty procRootBad "B" = Except.error PyError.keyError :=
  get_process_type_missing_value_raises fsEmpty procRootBad "B"
    [ptChildA] [ptChildB] ptChildNoValue rfl
    (by
      intro p hp
      rw [List.mem_singleton] at hp
      subst hp
      exact ⟨"A", rfl, by decide⟩)
    rfl

/-! ### Claim C10 — empty-string titles render like absent ones -/

/-- Claim C10: headings are suppressed for empty strings, not only for absent
values.  A question whose title is the empty string (directly, or via a
whitespace-only title that the constructor strips) renders exactly like one
with no title; likewise for the subtitle and for the questionnaire title; and
with both labels empty only the numbered option list remains. -/
theorem empty_titles_render_like_absent :
    (∀ (sub : Option String) (opts : List (Option String × Option String)),
        Question.render { title := some "", subtitle := sub, options := opts }
          = Question.render { title := none, subtitle := sub, options := opts })
    ∧ (∀ (t : Option String) (opts : List (Option String × Option String)),
        Question.render { title := t, subtitle := some "", options := opts }
          = Question.render { title := t, subtitle := none, options := opts })
    ∧ (∀ (sub : Option String) (opts : List (Option String × Option String)),
        Question.render { Question.make (some "  ") sub with options := opts }
          = Question.render { Question.make none sub with options := opts })
    ∧ (∀ opts : List (Option String × Option String),
        Question.render { title := some "", subtitle := some "", options := opts }
          = renderOptionsFrom 0 opts)
    ∧ (∀ qs : List (Option Question),
        Questionnaire.render { title := some "", questions := qs }
          = Questionnaire.render { title := none, questions := qs }) := by
  refine ⟨fun sub opts => ?_, fun t opts => ?_, fun sub opts => ?_, fun opts => ?_,
    fun qs => ?_⟩
  · simp [Question.render, truthyStr]
  · simp [Question.render, truthyStr]
  · have hps : pyStrip "  " = "" := rfl
    simp [Question.make, Question.render, truthyStr, hps]
  · simp [Question.render, truthyStr]
  · simp [Questionnaire.render, truthyStr, Questionnaire.renderedTexts]

end ChoirProc
